import Mathlib

/-!
Verification development for the stepper MQTT/Modbus bridge
(`stepper_mqtt_controller.py`, `modbus_connection.py`).

The definitions below are a shallow embedding of the controller code:
payload dictionaries become association lists of `PyVal`, every call the
controller makes to `ModbusConnection` becomes a `ModbusCall` value, the
boolean results returned by the connection layer are reproduced from
`modbus_connection.py`, and the status-polling tick becomes a pure state
transformer over an oracle describing the transport's behaviour during
that tick.
-/

namespace VSPC

/-- A scalar Python value as decoded from a JSON payload: an `int`, a
`float` (modelled as a rational; the payloads of interest are exact), or a
`str`. -/
inductive PyVal where
  | int (n : Int)
  | float (q : ℚ)
  | str (s : String)
deriving DecidableEq, Repr

/-- A decoded JSON object (Python `dict`) as an association list. -/
abbrev Params := List (String × PyVal)

/-- Python `params.get(k, d)`: the first binding of `k`, else the default. -/
def Params.getD (p : Params) (k : String) (d : PyVal) : PyVal :=
  match p.find? (fun kv => kv.1 == k) with
  | some kv => kv.2
  | none => d

/-- Extraction of an integer-valued field with an integer default.  `none`
models the `TypeError` path: the handler code does integer arithmetic on
the field (or hands it to the register encoder), so a non-integer value
raises before any acknowledgment is published. -/
def Params.getInt? (p : Params) (k : String) (d : Int) : Option Int :=
  match p.getD k (.int d) with
  | .int n => some n
  | _ => none

/-- Value of a digit string, most significant digit first. -/
def digitsToNat (cs : List Char) : Nat :=
  cs.foldl (fun a c => 10 * a + (c.toNat - 48)) 0

/-- A non-empty all-digit character list, or `none`. -/
def digitNat? (cs : List Char) : Option Nat :=
  if cs ≠ [] ∧ cs.all Char.isDigit then some (digitsToNat cs) else none

/-- Leading and trailing whitespace removal, as Python's `int`/`float`
do before parsing. -/
def pyStrip (cs : List Char) : List Char :=
  ((cs.dropWhile Char.isWhitespace).reverse.dropWhile Char.isWhitespace).reverse

/-- Model of Python `int(s)` on a decimal string: optional surrounding
whitespace, optional sign, one or more digits; `none` models `ValueError`. -/
def pyInt? (s : String) : Option Int :=
  match pyStrip s.toList with
  | '+' :: cs => (digitNat? cs).map (fun n => (n : Int))
  | '-' :: cs => (digitNat? cs).map (fun n => -(n : Int))
  | cs => (digitNat? cs).map (fun n => (n : Int))

/-- Magnitude of a Python float literal body: digits, optionally followed
by a point and more digits (`"12"`, `"12.7"`, `"12."`, `".5"`).  Exponent
and `inf`/`nan` forms are outside the modelled fragment. -/
def pyFloatMag? (cs : List Char) : Option ℚ :=
  let a := cs.takeWhile Char.isDigit
  let rest := cs.dropWhile Char.isDigit
  match rest with
  | [] => if a = [] then none else some ((digitsToNat a : ℚ))
  | '.' :: b =>
      if b.all Char.isDigit ∧ (a ≠ [] ∨ b ≠ []) then
        some ((digitsToNat a : ℚ) + (digitsToNat b : ℚ) / ((10 : ℚ) ^ b.length))
      else none
  | _ => none

/-- Model of Python `float(s)` on a decimal string; `none` models
`ValueError` (e.g. for `"abc"`). -/
def pyFloat? (s : String) : Option ℚ :=
  match pyStrip s.toList with
  | '+' :: cs => pyFloatMag? cs
  | '-' :: cs => (pyFloatMag? cs).map Neg.neg
  | cs => pyFloatMag? cs

/-- Model of Python `int(x)` on a float: truncation toward zero. -/
def pyTrunc (q : ℚ) : Int := Int.tdiv q.num (q.den : Int)

/-- Model of Python `seg.replace("stepper", "")`: delete every
(non-overlapping, left-to-right) occurrence of `"stepper"`. -/
def stripStepper : List Char → List Char
  | 's' :: 't' :: 'e' :: 'p' :: 'p' :: 'e' :: 'r' :: cs => stripStepper cs
  | c :: cs => c :: stripStepper cs
  | [] => []

/-- `_on_command`'s device-id extraction: strip `"stepper"` from the second
topic segment and parse it as an integer, defaulting to `0` on
`ValueError` (source: `stepper_id = 0  # Default to 0 if not a number`). -/
def parseStepperId (seg : String) : Int :=
  (pyInt? (String.mk (stripStepper seg.toList))).getD 0

/-- One call made by the controller to a method of `ModbusConnection`.
Field order follows the Python signatures
`write_register(self, address, value, slave_id)` and
`write_registers(self, address, values, slave_id)`: the first field is
bound to `address`, then `value`/`values`, then `slave_id`.
`writeMultipleRegisters` records a call to
`modbus.write_multiple_registers(...)`, a method `ModbusConnection` does
not define — the attribute lookup raises `AttributeError`. -/
inductive ModbusCall where
  | writeRegister (address value slaveId : Int)
  | writeRegisters (address : Int) (values : List Int) (slaveId : Int)
  | writeMultipleRegisters (address : Int) (values : List Int) (slaveId : Int)
deriving DecidableEq, Repr

/-- Environment of one register transaction: whether
`ModbusConnection._connected` holds and whether the pymodbus result
`isError()` (a transport failure). -/
structure Transport where
  connected : Bool
  isError : Bool
deriving DecidableEq, Repr

/-- Return value of `ModbusConnection.write_register`: `False` when not
connected, otherwise `result.isError()` — the raw error flag, not its
negation (modbus_connection.py line 156). -/
def writeRegisterResult (t : Transport) : Bool :=
  if t.connected then t.isError else false

/-- Return value of `ModbusConnection.write_registers`: `False` when not
connected, `True` on a non-error result, `False` on an error result. -/
def writeRegistersResult (t : Transport) : Bool :=
  if t.connected then !t.isError else false

/-- The boolean the controller receives back from one `ModbusCall`;
`none` models the `AttributeError` raised for the nonexistent
`write_multiple_registers` method (no value is returned, the exception
propagates past the acknowledgment publication). -/
def ModbusCall.result (t : Transport) : ModbusCall → Option Bool
  | .writeRegister _ _ _ => some (writeRegisterResult t)
  | .writeRegisters _ _ _ => some (writeRegistersResult t)
  | .writeMultipleRegisters _ _ _ => none

/-- An acknowledgment published on the per-axis ack topic. -/
structure Ack where
  topic : String
  command : String
  success : Bool
deriving DecidableEq, Repr

/-- The per-axis ack topic `stepper/stepper{slave_id}/axis/{axis_id}/ack`. -/
def ackTopic (slaveId axisId : Int) : String :=
  "stepper/stepper" ++ toString slaveId ++ "/axis/" ++ toString axisId ++ "/ack"

/-- Common tail of every `Axis` command handler: make one `ModbusCall`,
then publish an acknowledgment whose `success` field is exactly the
boolean that call returned.  When the call raises (`none` result) the
publication is never reached: the call is attempted but no ack exists. -/
def runCall (slaveId axisId : Int) (cmd : String) (c : ModbusCall)
    (t : Transport) : List ModbusCall × List Ack :=
  match c.result t with
  | some b => ([c], [⟨ackTopic slaveId axisId, cmd, b⟩])
  | none => ([c], [])

/-- `Axis._stop_axis`: `write_register(self.parent.slave_id, 0, 0)` —
positionally `(address, value, slave_id)`. -/
def stopCall (slaveId : Int) : ModbusCall := .writeRegister slaveId 0 0

/-- `Axis._enable_axis`: `write_register(self.parent.slave_id, 4, 1)`. -/
def enableCall (slaveId : Int) : ModbusCall := .writeRegister slaveId 4 1

/-- `Axis._disable_axis`: `write_register(self.parent.slave_id, 4, 0)`. -/
def disableCall (slaveId : Int) : ModbusCall := .writeRegister slaveId 4 0

/-- `Axis._reset_axis`: `write_register(self.parent.slave_id, 5, 1)`. -/
def resetCall (slaveId : Int) : ModbusCall := .writeRegister slaveId 5 1

/-- `Axis._home_axis`'s register transaction:
`write_register(self.parent.slave_id, 0, 1)` — the payload's direction
and speed never enter it ("speed and direction are saved on the device"). -/
def homeCall (slaveId : Int) : ModbusCall := .writeRegister slaveId 0 1

def runStop (slaveId axisId : Int) (t : Transport) : List ModbusCall × List Ack :=
  runCall slaveId axisId "stop" (stopCall slaveId) t

def runEnable (slaveId axisId : Int) (t : Transport) : List ModbusCall × List Ack :=
  runCall slaveId axisId "enable" (enableCall slaveId) t

def runDisable (slaveId axisId : Int) (t : Transport) : List ModbusCall × List Ack :=
  runCall slaveId axisId "disable" (disableCall slaveId) t

def runReset (slaveId axisId : Int) (t : Transport) : List ModbusCall × List Ack :=
  runCall slaveId axisId "reset" (resetCall slaveId) t

/-- The word list built by `Axis._move_absolute`:
`[0x0102, axis_id, target & 0xFFFF, (target >> 16) & 0xFFFF, 0, 0, speed,
accel, decel]`.  Python `&`/`>>` on possibly negative ints are Euclidean
mod and floor shift, i.e. `Int.emod`/`Int.ediv` by `2^16`. -/
def moveAbsoluteValues (axisId target speed accel decel : Int) : List Int :=
  [0x0102, axisId, Int.emod target 65536, Int.emod (Int.ediv target 65536) 65536,
   0, 0, speed, accel, decel]

/-- `Axis._move_absolute`: defaults position=0, speed=1000,
acceleration=1000, deceleration=1000; one `write_registers(0, values,
slave_id)` call followed by the ack. -/
def runMoveAbsolute (slaveId axisId : Int) (p : Params) (t : Transport) :
    List ModbusCall × List Ack :=
  match p.getInt? "position" 0, p.getInt? "speed" 1000,
        p.getInt? "acceleration" 1000, p.getInt? "deceleration" 1000 with
  | some target, some speed, some accel, some decel =>
      runCall slaveId axisId "move_absolute"
        (.writeRegisters 0 (moveAbsoluteValues axisId target speed accel decel) slaveId) t
  | _, _, _, _ => ([], [])

/-- The word list built by `Axis._move_relative`:
`[3, distance, speed, accel, decel]` — opcode `3` first and no axis-id
word anywhere. -/
def moveRelativeValues (distance speed accel decel : Int) : List Int :=
  [3, distance, speed, accel, decel]

/-- `Axis._move_relative`: defaults distance=0, speed=1000,
acceleration=1000, deceleration=1000; calls
`modbus.write_multiple_registers(0, values, slave_id)`, a method
`ModbusConnection` does not define, so no acknowledgment ever follows. -/
def runMoveRelative (slaveId axisId : Int) (p : Params) (t : Transport) :
    List ModbusCall × List Ack :=
  match p.getInt? "distance" 0, p.getInt? "speed" 1000,
        p.getInt? "acceleration" 1000, p.getInt? "deceleration" 1000 with
  | some distance, some speed, some accel, some decel =>
      runCall slaveId axisId "move_relative"
        (.writeMultipleRegisters 0 (moveRelativeValues distance speed accel decel) slaveId) t
  | _, _, _, _ => ([], [])

/-- The direction `Axis._home_axis` reads from the payload (default 1);
it is only logged, never written to a register. -/
def homeDirection (p : Params) : PyVal := p.getD "direction" (.int 1)

/-- The speed `Axis._home_axis` reads from the payload (default 500);
it is only logged, never written to a register. -/
def homeSpeed (p : Params) : PyVal := p.getD "speed" (.int 500)

/-- `Axis._home_axis`: reads direction/speed for the log line, then makes
the single-register call `homeCall` and publishes the ack. -/
def runHome (slaveId axisId : Int) (p : Params) (t : Transport) :
    List ModbusCall × List Ack :=
  let _ := (homeDirection p, homeSpeed p)
  runCall slaveId axisId "home" (homeCall slaveId) t

/-- The word list built by `Axis._enable_servo_mode`:
`[0x0201, axis_id, max_speed, accel]`. -/
def enableServoValues (axisId maxSpeed accel : Int) : List Int :=
  [0x0201, axisId, maxSpeed, accel]

/-- `Axis._enable_servo_mode`: defaults max_speed=5000, acceleration=1000;
one `write_registers(0, values, slave_id)` call followed by the ack. -/
def runEnableServo (slaveId axisId : Int) (p : Params) (t : Transport) :
    List ModbusCall × List Ack :=
  match p.getInt? "max_speed" 5000, p.getInt? "acceleration" 1000 with
  | some maxSpeed, some accel =>
      runCall slaveId axisId "enable_servo_mode"
        (.writeRegisters 0 (enableServoValues axisId maxSpeed accel) slaveId) t
  | _, _ => ([], [])

/-- `Axis._disable_servo_mode`: one `write_registers(0, [0x0202, axis_id],
slave_id)` call followed by the ack. -/
def runDisableServo (slaveId axisId : Int) (t : Transport) :
    List ModbusCall × List Ack :=
  runCall slaveId axisId "disable_servo_mode"
    (.writeRegisters 0 [0x0202, axisId] slaveId) t

/-- `Axis._set_servo_speed`'s coercion of the `speed` field: an `int` is
kept as is, a `float` is truncated toward zero, a `str` is parsed as a
Python float and truncated; `none` models the `ValueError` branch that
returns `False` with no register write. -/
def servoSpeedInt? : PyVal → Option Int
  | .int n => some n
  | .float q => some (pyTrunc q)
  | .str s => (pyFloat? s).map pyTrunc

/-- `Axis._set_servo_speed`: coerce `params.get('speed', 0)`; on failure
return with no write and no ack, otherwise one
`write_registers(0, [0x0203, axis_id, speed], slave_id)` call and the ack. -/
def runServoSpeed (slaveId axisId : Int) (p : Params) (t : Transport) :
    List ModbusCall × List Ack :=
  match servoSpeedInt? (p.getD "speed" (.int 0)) with
  | some speed =>
      runCall slaveId axisId "set_servo_speed"
        (.writeRegisters 0 [0x0203, axisId, speed] slaveId) t
  | none => ([], [])

/-- Concatenation of the effects of two handler runs (used by the
device-level commands, which act on axis 0 then axis 1). -/
def pairConcat (a b : List ModbusCall × List Ack) : List ModbusCall × List Ack :=
  (a.1 ++ b.1, a.2 ++ b.2)

/-- The delegation guard of `_move_absolute`/`_move_relative`/`_home_axis`/
`_stop_axis`/`_enable_axis`/`_disable_axis`/`_reset_axis` on the
controller: axis 0 goes to `self.axis0`, axis 1 to `self.axis1`, anything
else is logged as an error and dropped with no write and no ack. -/
def guard01 (axisId : Int) (f : Int → List ModbusCall × List Ack) :
    List ModbusCall × List Ack :=
  if axisId = 0 ∨ axisId = 1 then f axisId else ([], [])

/-- The axis selection of `_enable_servo_mode`/`_disable_servo_mode`/
`_set_servo_speed` on the controller:
`axis = self.axis0 if axis_id == 0 else self.axis1` — no range check, any
axis id other than 0 selects axis 1. -/
def servoAxis (axisId : Int) : Int := if axisId = 0 then 0 else 1

/-- The dispatch part of `StepperMQTTController._on_command`, after the
length, device-id and payload-decode checks: device-level commands for
three-segment topics, per-axis commands for `.../axis/...` topics.  The
result collects every `ModbusCall` made and every acknowledgment
published while handling the message; `([], [])` means it was dropped. -/
def onCommandBody (slaveId : Int) (parts : List String)
    (payload : Params) (t : Transport) : List ModbusCall × List Ack :=
      if parts.length = 3 then
        let cmd := parts.getD 2 ""
        if cmd = "enable" then pairConcat (runEnable slaveId 0 t) (runEnable slaveId 1 t)
        else if cmd = "disable" then pairConcat (runDisable slaveId 0 t) (runDisable slaveId 1 t)
        else if cmd = "reset" then pairConcat (runReset slaveId 0 t) (runReset slaveId 1 t)
        else ([], [])
      else if 5 ≤ parts.length ∧ parts.getD 2 "" = "axis" then
        match pyInt? (parts.getD 3 "") with
        | none => ([], [])
        | some axisId =>
          let cmd := if 6 ≤ parts.length ∧ parts.getD 4 "" = "move"
                     then "move_" ++ parts.getD 5 "" else parts.getD 4 ""
          if cmd = "move_absolute" then
            guard01 axisId (fun a => runMoveAbsolute slaveId a payload t)
          else if cmd = "move_relative" then
            guard01 axisId (fun a => runMoveRelative slaveId a payload t)
          else if cmd = "home" then
            guard01 axisId (fun a => runHome slaveId a payload t)
          else if cmd = "stop" then guard01 axisId (fun a => runStop slaveId a t)
          else if cmd = "enable" then guard01 axisId (fun a => runEnable slaveId a t)
          else if cmd = "disable" then guard01 axisId (fun a => runDisable slaveId a t)
          else if cmd = "reset" then guard01 axisId (fun a => runReset slaveId a t)
          else if cmd = "enable_servo" then
            runEnableServo slaveId (servoAxis axisId) payload t
          else if cmd = "disable_servo" then
            runDisableServo slaveId (servoAxis axisId) t
          else if cmd = "servo_speed" then
            if payload = [] then ([], [])
            else runServoSpeed slaveId (servoAxis axisId) payload t
          else ([], [])
      else ([], [])

/-- `StepperMQTTController._on_command` over the already-'/'-split topic
segments.  `payload?` is the outcome of `json.loads` on the payload text:
`none` when it raises `JSONDecodeError` (as it does for a zero-length
payload), `some p` when it yields the object `p`.  Short topics,
device-id mismatches (the source's `stepper_id != '+'` conjunct is
vacuous — an `int` never equals a string — and is omitted) and
undecodable payloads are dropped before `onCommandBody` runs. -/
def onCommandParts (slaveId : Int) (parts : List String)
    (payload? : Option Params) (t : Transport) : List ModbusCall × List Ack :=
  if parts.length < 3 then ([], [])
  else if parseStepperId (parts.getD 1 "") ≠ slaveId then ([], [])
  else
    match payload? with
    | none => ([], [])
    | some payload => onCommandBody slaveId parts payload t

/-- `_on_command` on the raw topic string: split on `'/'` and route. -/
def onCommand (slaveId : Int) (topic : String) (payload? : Option Params)
    (t : Transport) : List ModbusCall × List Ack :=
  onCommandParts slaveId (topic.splitOn "/") payload? t

/-- Whitespace skipping for the JSON decoder. -/
def jsonWs (cs : List Char) : List Char :=
  cs.dropWhile (fun c => c == ' ' || c == '\n' || c == '\t' || c == '\r')

/-- A JSON string literal without escape sequences: the text between two
double quotes, and the remainder of the input. -/
def jsonString? : List Char → Option (String × List Char)
  | '"' :: cs =>
      let content := cs.takeWhile (fun c => c != '"')
      match cs.dropWhile (fun c => c != '"') with
      | '"' :: rest => some (String.mk content, rest)
      | _ => none
  | _ => none

/-- A JSON scalar value of the modelled fragment: a string literal or a
(signed) integer literal. -/
def jsonValue? (cs : List Char) : Option (PyVal × List Char) :=
  match jsonString? cs with
  | some (s, rest) => some (.str s, rest)
  | none =>
    match cs with
    | '-' :: ds =>
        let a := ds.takeWhile Char.isDigit
        if a = [] then none
        else some (.int (-(digitsToNat a : Int)), ds.dropWhile Char.isDigit)
    | ds =>
        let a := ds.takeWhile Char.isDigit
        if a = [] then none
        else some (.int ((digitsToNat a : Int)), ds.dropWhile Char.isDigit)

/-- Comma-separated `"key": value` pairs, fuelled by the input length. -/
def jsonPairs? : Nat → List Char → Option (Params × List Char)
  | 0, _ => none
  | fuel + 1, cs =>
    match jsonString? (jsonWs cs) with
    | none => none
    | some (key, rest) =>
      match jsonWs rest with
      | ':' :: rest2 =>
        match jsonValue? (jsonWs rest2) with
        | none => none
        | some (v, rest3) =>
          match jsonWs rest3 with
          | ',' :: rest4 =>
            match jsonPairs? fuel rest4 with
            | some (ps, r) => some ((key, v) :: ps, r)
            | none => none
          | r => some ([(key, v)], r)
      | _ => none

/-- Model of `json.loads` on the payload fragment the controller exchanges:
a flat JSON object with string keys and string/integer values.  A
zero-length document is not valid JSON and yields `none`, exactly as
`json.loads("")` raises `JSONDecodeError`; `"\x7b\x7d"` yields the empty
object. -/
def jsonLoadsObject? (s : String) : Option Params :=
  match jsonWs s.toList with
  | '\x7b' :: cs =>
    match jsonWs cs with
    | '\x7d' :: rest => if jsonWs rest = [] then some [] else none
    | cs2 =>
      match jsonPairs? (cs2.length + 1) cs2 with
      | some (ps, rest) =>
        match jsonWs rest with
        | '\x7d' :: rest2 => if jsonWs rest2 = [] then some ps else none
        | _ => none
      | none => none
  | _ => none

/-- The seven status booleans the poller decodes for one axis
(`limit_neg`, `limit_pos`, `is_moving`, `is_done`, `is_homed`,
`has_error`, `is_servo_mode`).  The default dictionaries used on a failed
status read also carry two extra always-false keys (`is_stalled`,
`is_enabled`) not present on the success path; they carry no information
and are not modelled. -/
structure AxisStatusBits where
  limit_neg : Bool
  limit_pos : Bool
  is_moving : Bool
  is_done : Bool
  is_homed : Bool
  has_error : Bool
  is_servo_mode : Bool
deriving DecidableEq, Repr

/-- Axis-0 decode of the status word: masks 0x01, 0x02, 0x04, 0x08, 0x10,
0x20 and 0x40 (servo mode). -/
def decodeAxis0 (w : Nat) : AxisStatusBits :=
  ⟨w.testBit 0, w.testBit 1, w.testBit 2, w.testBit 3, w.testBit 4,
   w.testBit 5, w.testBit 6⟩

/-- Axis-1 decode of the status word: masks 0x0100, 0x0200, 0x0400,
0x0800, 0x1000, 0x2000 and 0x4000 (servo mode). -/
def decodeAxis1 (w : Nat) : AxisStatusBits :=
  ⟨w.testBit 8, w.testBit 9, w.testBit 10, w.testBit 11, w.testBit 12,
   w.testBit 13, w.testBit 14⟩

/-- The all-false default status dictionary published after a failed
status read. -/
def defaultBits : AxisStatusBits := ⟨false, false, false, false, false, false, false⟩

/-- One message published by the poller on a status or position topic. -/
inductive PollPub where
  | axisStatus (axisId : Nat) (bits : AxisStatusBits)
  | axisPosition (axisId : Nat) (position : Nat)
deriving DecidableEq, Repr

/-- The mutable controller state the poll loop touches:
`status["connected"]`, `status["error"]` (as a flag for
`"Error detected"`), the `running` flag and `positions`. -/
structure PollState where
  connected : Bool
  errorFlag : Bool
  running : Bool
  pos0 : Nat
  pos1 : Nat
deriving DecidableEq, Repr

/-- What the transport does during one poll tick.  `raises` — some call in
the tick body raises an exception (the only way into the `except` branch;
a read that merely returns `None` does not raise).  `statusRead` — the
value `read_registers(1, STATUS_REG, slave_id)` returns.  `posRead` — the
value `read_registers(AXIS0_POSITION_REG, 4, slave_id)` returns (the
registers 0x11 and 0x13 are consecutive, so only this branch runs).
`isConnectedAns` / `connectAns` — what `modbus.is_connected()` /
`modbus.connect()` return inside the `except` branch. -/
structure PollOracle where
  raises : Bool
  statusRead : Option (List Nat)
  posRead : Option (List Nat)
  isConnectedAns : Bool
  connectAns : Bool
deriving DecidableEq, Repr

/-- Result of one poll tick: the new state, the messages published, and
whether `modbus.connect()` was invoked (a reconnect attempt). -/
structure TickResult where
  state : PollState
  pubs : List PollPub
  reconnectAttempted : Bool
deriving DecidableEq, Repr

/-- Python `(regs[1] << 16) | regs[0]` on two non-negative register words:
plain bitwise combination with no sign extension. -/
def combinePos (lo hi : Nat) : Nat := (hi <<< 16) ||| lo

/-- One iteration of `StepperMQTTController._poll_status`.  On the normal
path: a truthy, non-empty status read decodes both axes and sets
`connected := True` and the error flag; a falsy/empty one publishes the
default dictionaries and leaves `connected` and `error` untouched.  A
position read of exactly four words updates both positions; anything else
leaves them stale.  Status and position messages are then published (the
positions publish even when stale).  On the exception path
(`o.raises`): nothing is published, `connected` is set to `False`, and
`modbus.connect()` is attempted only when `modbus.is_connected()` is
false.  `running` is never modified, so the loop proceeds to the next
tick after the fixed sleep either way. -/
def pollTick (s : PollState) (o : PollOracle) : TickResult :=
  if o.raises then
    if o.isConnectedAns then
      ⟨{ s with connected := false }, [], false⟩
    else
      ⟨{ s with connected := o.connectAns }, [], true⟩
  else
    let statusOut :=
      match o.statusRead with
      | some (w :: _) =>
          some (w, decodeAxis0 w, decodeAxis1 w)
      | _ => none
    let conn2 := match statusOut with
      | some _ => true
      | none => s.connected
    let err2 := match statusOut with
      | some (_, b0, b1) => b0.has_error || b1.has_error
      | none => s.errorFlag
    let (p0, p1) :=
      match o.posRead with
      | some [a, b, c, d] => (combinePos a b, combinePos c d)
      | _ => (s.pos0, s.pos1)
    let statusPubs :=
      match statusOut with
      | some (_, b0, b1) => [PollPub.axisStatus 0 b0, PollPub.axisStatus 1 b1]
      | none => [PollPub.axisStatus 0 defaultBits, PollPub.axisStatus 1 defaultBits]
    ⟨{ connected := conn2, errorFlag := err2, running := s.running,
       pos0 := p0, pos1 := p1 },
     statusPubs ++ [PollPub.axisPosition 0 p0, PollPub.axisPosition 1 p1],
     false⟩

/-- Modelled from the spec: "a position value is the combination of two
16-bit registers, low word first, high word second, reassembled as a
32-bit integer" with `AxisState.position` a 32-bit signed integer — the
two's-complement reading of the 32-bit combination.  This definition
follows the spec's words, for comparison with `combinePos`, which is the
source's computation. -/
def specSignedCombine (lo hi : Nat) : Int :=
  if 32768 ≤ hi then (65536 * hi + lo : Int) - 4294967296
  else (65536 * hi + lo : Int)

/-- The unsigned combination written by the poller, as plain arithmetic:
the bitwise form `(hi <<< 16) ||| lo` equals `65536 * hi + lo` whenever
the low word fits in 16 bits. -/
lemma combinePos_eq_add (lo hi : Nat) (h : lo < 65536) :
    combinePos lo hi = 65536 * hi + lo := by
  have h2 : lo < 2 ^ 16 := by omega
  apply Nat.eq_of_testBit_eq
  intro i
  have hrhs : 65536 * hi + lo = 2 ^ 16 * hi + lo := by norm_num
  unfold combinePos
  rw [Nat.testBit_or, Nat.testBit_shiftLeft, hrhs,
      Nat.testBit_mul_pow_two_add hi h2 i]
  by_cases hlt : i < 16
  · have hnle : ¬ (16 ≤ i) := by omega
    simp [hlt, hnle]
  · have hle : 16 ≤ i := by omega
    have hbit : lo.testBit i = false := by
      apply Nat.testBit_lt_two_pow
      calc lo < 2 ^ 16 := h2
        _ ≤ 2 ^ i := Nat.pow_le_pow_right (by norm_num) hle
    simp [hlt, hle, hbit]

/-- C1 (status: code_bug).  The claim says a command-triggered write's
acknowledgment reports `success:false` exactly when the transport write
fails.  `ModbusConnection.write_registers` honours that
(`move_absolute` conjunct: connected, no error ⇒ `success:true`), but
`ModbusConnection.write_register` returns `result.isError()` un-negated,
so every single-register action (home, stop, enable, disable, reset)
publishes `success:false` on a successful write and `success:true` on a
failed one; and `move_relative` publishes no acknowledgment at all
because the method it calls does not exist.  This theorem evaluates the
code at those failing inputs. -/
theorem C1_ack_polarity_bug :
    (runStop 1 0 ⟨true, false⟩).2
      = [⟨"stepper/stepper1/axis/0/ack", "stop", false⟩]
    ∧ (runStop 1 0 ⟨true, true⟩).2
      = [⟨"stepper/stepper1/axis/0/ack", "stop", true⟩]
    ∧ (runHome 1 0 [] ⟨true, false⟩).2
      = [⟨"stepper/stepper1/axis/0/ack", "home", false⟩]
    ∧ (runMoveAbsolute 1 0 [] ⟨true, false⟩).2
      = [⟨"stepper/stepper1/axis/0/ack", "move_absolute", true⟩]
    ∧ (runMoveRelative 1 0 [] ⟨true, false⟩).2 = [] :=
  ⟨rfl, rfl, rfl, rfl, rfl⟩

/-- C2 (status: code_bug).  The claim says each single-word action writes
its dedicated control address with a documented literal value and that
the device id never appears as the write's address or value.  The call
sites pass `(slave_id, ctrl_addr, literal)` into the signature
`write_register(address, value, slave_id)`, so with configured device
id 2 every such write carries register address 2 — the device id — and
the intended control address as its value, contradicting the call-site
comments (`4,  # Address`, `1   # Value (enable)`). -/
theorem C2_swapped_write_args :
    (runStop 2 0 ⟨true, false⟩).1 = [ModbusCall.writeRegister 2 0 0]
    ∧ (runEnable 2 0 ⟨true, false⟩).1 = [ModbusCall.writeRegister 2 4 1]
    ∧ (runDisable 2 0 ⟨true, false⟩).1 = [ModbusCall.writeRegister 2 4 0]
    ∧ (runReset 2 0 ⟨true, false⟩).1 = [ModbusCall.writeRegister 2 5 1]
    ∧ (2 : Int) ≠ 0 ∧ (2 : Int) ≠ 4 ∧ (2 : Int) ≠ 5 := by
  refine ⟨rfl, rfl, rfl, rfl, ?_, ?_, ?_⟩ <;> decide

/-- C3 (status: corrected) — counterexample.  The claim asserts every
multi-word action writes an opcode word first and an axis-id word second,
and that home's write carries its direction and speed words.  On axis 0
with `{"distance": 7}`, relative move builds
`[3, 7, 1000, 1000, 1000]`: the second word is the distance 7, not the
axis id 0 (and the call targets a method `ModbusConnection` lacks).
Home's transaction is the fixed single-register call
`write_register(slave_id, 0, 1)`, whose three fields `(1, 0, 1)` contain
neither the default speed word 500 nor any direction word. -/
theorem C3_counterexample :
    (runMoveRelative 1 0 [("distance", .int 7)] ⟨true, false⟩).1
      = [ModbusCall.writeMultipleRegisters 0 [3, 7, 1000, 1000, 1000] 1]
    ∧ (moveRelativeValues 7 1000 1000 1000).get? 1 = some 7
    ∧ (7 : Int) ≠ 0
    ∧ (runHome 1 0 [] ⟨true, false⟩).1 = [ModbusCall.writeRegister 1 0 1]
    ∧ (500 : Int) ∉ ([1, 0, 1] : List Int) := by
  refine ⟨rfl, rfl, by decide, rfl, by decide⟩

/-- C3 (status: corrected) — amended claim.  Absolute move and the three
servo actions issue one ordered multi-register write with the opcode word
first and the axis-id word second, then the action parameters.  Relative
move builds `[3, distance, speed, accel, decel]` — opcode 3 first, no
axis-id word — and hands it to the nonexistent
`write_multiple_registers`, so no acknowledgment follows.  Home parses
direction (default 1) and speed (default 500) from the payload but only
logs them: its register transaction is the single-register call
`write_register(slave_id, 0, 1)`, which carries neither. -/
theorem C3_amended (slaveId axisId target speed accel decel distance maxSpeed : Int)
    (p q r : Params) (t : Transport)
    (hpos : p.getInt? "position" 0 = some target)
    (hps : p.getInt? "speed" 1000 = some speed)
    (hpa : p.getInt? "acceleration" 1000 = some accel)
    (hpd : p.getInt? "deceleration" 1000 = some decel)
    (hqd : q.getInt? "distance" 0 = some distance)
    (hqs : q.getInt? "speed" 1000 = some speed)
    (hqa : q.getInt? "acceleration" 1000 = some accel)
    (hqe : q.getInt? "deceleration" 1000 = some decel)
    (hrm : r.getInt? "max_speed" 5000 = some maxSpeed)
    (hra : r.getInt? "acceleration" 1000 = some accel) :
    (runMoveAbsolute slaveId axisId p t).1
      = [ModbusCall.writeRegisters 0
          (moveAbsoluteValues axisId target speed accel decel) slaveId]
    ∧ (moveAbsoluteValues axisId target speed accel decel).get? 0 = some 0x0102
    ∧ (moveAbsoluteValues axisId target speed accel decel).get? 1 = some axisId
    ∧ (runEnableServo slaveId axisId r t).1
      = [ModbusCall.writeRegisters 0 [0x0201, axisId, maxSpeed, accel] slaveId]
    ∧ (runDisableServo slaveId axisId t).1
      = [ModbusCall.writeRegisters 0 [0x0202, axisId] slaveId]
    ∧ (runServoSpeed slaveId axisId [("speed", PyVal.int speed)] t).1
      = [ModbusCall.writeRegisters 0 [0x0203, axisId, speed] slaveId]
    ∧ (runMoveRelative slaveId axisId q t)
      = ([ModbusCall.writeMultipleRegisters 0
            [3, distance, speed, accel, decel] slaveId], [])
    ∧ homeDirection [] = PyVal.int 1
    ∧ homeSpeed [] = PyVal.int 500
    ∧ (runHome slaveId axisId q t).1 = [ModbusCall.writeRegister slaveId 0 1] := by
  refine ⟨?_, rfl, rfl, ?_, rfl, rfl, ?_, rfl, rfl, rfl⟩
  · rw [runMoveAbsolute, hpos, hps, hpa, hpd]; rfl
  · rw [runEnableServo, hrm, hra]; rfl
  · rw [runMoveRelative, hqd, hqs, hqa, hqe]; rfl

/-- Closed instance of `C3_amended` at concrete payloads. -/
theorem C3_amended_witness :
    (runMoveRelative 1 0
        [("distance", PyVal.int 7), ("speed", PyVal.int 3),
         ("acceleration", PyVal.int 4), ("deceleration", PyVal.int 5)]
        ⟨true, false⟩)
      = ([ModbusCall.writeMultipleRegisters 0 [3, 7, 3, 4, 5] 1], [])
    ∧ (runMoveAbsolute 1 0
        [("position", PyVal.int 2), ("speed", PyVal.int 3),
         ("acceleration", PyVal.int 4), ("deceleration", PyVal.int 5)]
        ⟨true, false⟩).1
      = [ModbusCall.writeRegisters 0 (moveAbsoluteValues 0 2 3 4 5) 1]
    ∧ (runHome 1 0
        [("distance", PyVal.int 7), ("speed", PyVal.int 3),
         ("acceleration", PyVal.int 4), ("deceleration", PyVal.int 5)]
        ⟨true, false⟩).1
      = [ModbusCall.writeRegister 1 0 1] := by
  have h := C3_amended 1 0 2 3 4 5 7 9
    [("position", PyVal.int 2), ("speed", PyVal.int 3),
     ("acceleration", PyVal.int 4), ("deceleration", PyVal.int 5)]
    [("distance", PyVal.int 7), ("speed", PyVal.int 3),
     ("acceleration", PyVal.int 4), ("deceleration", PyVal.int 5)]
    [("max_speed", PyVal.int 9), ("acceleration", PyVal.int 4)]
    ⟨true, false⟩ rfl rfl rfl rfl rfl rfl rfl rfl rfl rfl
  exact ⟨h.2.2.2.2.2.2.1, h.1, h.2.2.2.2.2.2.2.2.2⟩

/-- C4 (status: confirmed).  An absolute move with payload
`position = 1000, speed = 500` on any axis issues exactly the write
`[0x0102, axis_id, 1000, 0, 0, 0, 500, 1000, 1000]` starting at
register 0: opcode, axis id, low word 1000, high word 0, two placeholder
zeros, speed 500, and the default acceleration and deceleration 1000. -/
theorem C4_absolute_move_example (slaveId axisId : Int) (t : Transport) :
    (runMoveAbsolute slaveId axisId
        [("position", PyVal.int 1000), ("speed", PyVal.int 500)] t).1
      = [ModbusCall.writeRegisters 0
          [0x0102, axisId, 1000, 0, 0, 0, 500, 1000, 1000] slaveId] :=
  rfl

/-- C5 (status: corrected) — counterexample.  The claim says a failed
poll-tick register read marks DeviceStatus disconnected and attempts a
reconnect in that same tick.  In a tick where both reads fail by
returning no data (and nothing raises), the connected flag stays `true`
and `modbus.connect()` is never invoked: only an exception reaches the
handler that touches the flag. -/
theorem C5_counterexample :
    (pollTick ⟨true, false, true, 0, 0⟩
        ⟨false, none, none, true, true⟩).state.connected = true
    ∧ (pollTick ⟨true, false, true, 0, 0⟩
        ⟨false, none, none, true, true⟩).reconnectAttempted = false :=
  ⟨rfl, rfl⟩

/-- C5 (status: corrected) — amended claim.  A register read that fails by
returning no data publishes default status and leaves the connected flag
unchanged, with no reconnect attempt.  Only a tick in which an exception
is raised marks DeviceStatus disconnected; the reconnect is then
attempted exactly when `is_connected()` reports false, and a failed
reconnect leaves the flag false until the next tick — the fixed poll
interval is the retry cadence, with no added backoff.  No failure clears
the running flag, so the poll loop keeps running rather than aborting. -/
theorem C5_amended (s : PollState) (o : PollOracle) :
    (o.raises = false →
      (pollTick s o).reconnectAttempted = false
      ∧ (o.statusRead = none → (pollTick s o).state.connected = s.connected))
    ∧ (o.raises = true →
      (pollTick s o).reconnectAttempted = !o.isConnectedAns
      ∧ (pollTick s o).state.connected = (!o.isConnectedAns && o.connectAns))
    ∧ (pollTick s o).state.running = s.running := by
  obtain ⟨raises, statusRead, posRead, isC, cA⟩ := o
  cases raises with
  | false =>
      refine ⟨fun _ => ⟨rfl, fun hs => ?_⟩, fun h => Bool.noConfusion h, rfl⟩
      subst hs; rfl
  | true =>
      cases isC with
      | false => exact ⟨fun h => Bool.noConfusion h, fun _ => ⟨rfl, rfl⟩, rfl⟩
      | true => exact ⟨fun h => Bool.noConfusion h, fun _ => ⟨rfl, rfl⟩, rfl⟩

/-- Closed instance of `C5_amended`: with no exception raised, the tick
neither reconnects nor stops the loop. -/
theorem C5_amended_witness :
    (pollTick ⟨true, false, true, 0, 0⟩
        ⟨false, none, none, true, true⟩).reconnectAttempted = false
    ∧ (pollTick ⟨false, false, true, 0, 0⟩
        ⟨true, none, none, false, false⟩).state.connected = false
    ∧ (pollTick ⟨true, false, true, 0, 0⟩
        ⟨false, none, none, true, true⟩).state.running = true := by
  refine ⟨((C5_amended ⟨true, false, true, 0, 0⟩
      ⟨false, none, none, true, true⟩).1 rfl).1, ?_, ?_⟩
  · exact ((C5_amended ⟨false, false, true, 0, 0⟩
      ⟨true, none, none, false, false⟩).2.1 rfl).2
  · exact (C5_amended ⟨true, false, true, 0, 0⟩
      ⟨false, none, none, true, true⟩).2.2

/-- C6 (status: corrected) — counterexample.  The claim says a register
pair whose high word has its top bit set yields the corresponding
negative 32-bit value.  The poller computes
`(regs[1] << 16) | regs[0]` with no sign conversion: for registers
`[0, 0x8000]` it publishes 2147483648, whereas the spec's signed
reassembly of that pair is -2147483648. -/
theorem C6_counterexample :
    combinePos 0 32768 = 2147483648
    ∧ specSignedCombine 0 32768 = -2147483648
    ∧ ((2147483648 : Int) ≠ -2147483648)
    ∧ (pollTick ⟨true, false, true, 0, 0⟩
        ⟨false, none, some [0, 32768, 0, 0], true, true⟩).state.pos0
      = 2147483648 := by
  refine ⟨by decide, by decide, by decide, rfl⟩

/-- C6 (status: corrected) — amended claim.  For a successful position
read, the published position is the plain unsigned combination
`65536 * high + low` of the two 16-bit registers, low word first:
`[5, 0]` gives 5 and `[0, 1]` gives 65536, but a high word with its top
bit set gives a large positive value (at least 2^31), never a negative
one. -/
theorem C6_amended (lo hi : Nat) (h : lo < 65536) :
    combinePos lo hi = 65536 * hi + lo
    ∧ (32768 ≤ hi → 2147483648 ≤ combinePos lo hi)
    ∧ ∀ (s : PollState) (o : PollOracle) (l1 h1 : Nat),
        o.raises = false → o.posRead = some [lo, hi, l1, h1] →
        (pollTick s o).state.pos0 = combinePos lo hi
        ∧ PollPub.axisPosition 0 (combinePos lo hi) ∈ (pollTick s o).pubs := by
  have hadd := combinePos_eq_add lo hi h
  refine ⟨hadd, fun hbit => ?_, ?_⟩
  · rw [hadd]; omega
  · intro s o l1 h1 hraise hpos
    obtain ⟨raises, statusRead, posRead, isC, cA⟩ := o
    cases hraise
    cases hpos
    cases statusRead with
    | none => exact ⟨rfl, by simp [pollTick]⟩
    | some l =>
        cases l with
        | nil => exact ⟨rfl, by simp [pollTick]⟩
        | cons w ws => exact ⟨rfl, by simp [pollTick]⟩

/-- Closed instance of `C6_amended`, covering the spec's two vectors and
a top-bit-set high word. -/
theorem C6_amended_witness :
    combinePos 5 0 = 5
    ∧ combinePos 0 1 = 65536
    ∧ 2147483648 ≤ combinePos 0 32768 :=
  ⟨(C6_amended 5 0 (by decide)).1, (C6_amended 0 1 (by decide)).1,
   (C6_amended 0 32768 (by decide)).2.1 (by decide)⟩

/-- C7 (status: confirmed).  For every configured device id and every
command topic whose device segment parses (after stripping `"stepper"`)
to a device id X, a mismatch of X against the configured id drops the
message before any payload handling: no register write is made and no
acknowledgment is published.  Dispatch therefore happens only on an
exact match. -/
theorem C7_device_filter (slaveId X : Int) (parts : List String)
    (payload? : Option Params) (t : Transport)
    (hlen : 3 ≤ parts.length)
    (hX : parseStepperId (parts.getD 1 "") = X)
    (hne : X ≠ slaveId) :
    onCommandParts slaveId parts payload? t = ([], []) := by
  unfold onCommandParts
  rw [if_neg (by omega), if_pos (by rw [hX]; exact hne)]

/-- Closed instance of `C7_device_filter`: a stop command for device 2 is
ignored by the bridge configured as device 1. -/
theorem C7_device_filter_witness :
    onCommandParts 1 ["stepper", "stepper2", "axis", "0", "stop"]
        (some []) ⟨true, false⟩ = ([], []) :=
  C7_device_filter 1 2 ["stepper", "stepper2", "axis", "0", "stop"]
    (some []) ⟨true, false⟩ (by decide) (by decide) (by decide)

/-- C8 (status: confirmed).  A message whose topic has fewer than three
'/'-separated segments, or whose payload is not valid JSON (the decode
raised), or whose axis segment is not an integer (for a
`.../axis/...` topic), is dropped: no register write and no
acknowledgment. -/
theorem C8_parse_failures (slaveId : Int) (parts : List String)
    (payload? : Option Params) (t : Transport)
    (h : parts.length < 3 ∨ payload? = none
        ∨ (4 ≤ parts.length ∧ parts.getD 2 "" = "axis"
            ∧ pyInt? (parts.getD 3 "") = none)) :
    onCommandParts slaveId parts payload? t = ([], []) := by
  rcases h with h | h | ⟨h4, haxis, hax⟩
  · unfold onCommandParts
    rw [if_pos h]
  · subst h
    unfold onCommandParts
    by_cases h1 : parts.length < 3
    · rw [if_pos h1]
    · rw [if_neg h1]
      by_cases h2 : parseStepperId (parts.getD 1 "") ≠ slaveId
      · rw [if_pos h2]
      · rw [if_neg h2]
  · unfold onCommandParts
    have hn3 : ¬ parts.length < 3 := by omega
    rw [if_neg hn3]
    by_cases h2 : parseStepperId (parts.getD 1 "") ≠ slaveId
    · rw [if_pos h2]
    · rw [if_neg h2]
      cases payload? with
      | none => rfl
      | some payload =>
        show onCommandBody slaveId parts payload t = ([], [])
        unfold onCommandBody
        have hne3 : ¬ parts.length = 3 := by omega
        rw [if_neg hne3]
        by_cases h5 : 5 ≤ parts.length
        · have hc : 5 ≤ parts.length ∧ parts.getD 2 "" = "axis" := ⟨h5, haxis⟩
          rw [if_pos hc, hax]
        · have hc : ¬ (5 ≤ parts.length ∧ parts.getD 2 "" = "axis") :=
            fun hc => h5 hc.1
          rw [if_neg hc]

/-- Closed instances of `C8_parse_failures`: a one-segment topic, an
invalid-JSON payload, and a non-integer axis segment are all dropped. -/
theorem C8_parse_failures_witness :
    onCommandParts 1 ["stepper"] (some []) ⟨true, false⟩ = ([], [])
    ∧ onCommandParts 1 ["stepper", "stepper1", "axis", "0", "stop"]
        none ⟨true, false⟩ = ([], [])
    ∧ onCommandParts 1 ["stepper", "stepper1", "axis", "x", "stop"]
        (some []) ⟨true, false⟩ = ([], []) :=
  ⟨C8_parse_failures 1 ["stepper"] (some []) ⟨true, false⟩
      (Or.inl (by decide)),
   C8_parse_failures 1 ["stepper", "stepper1", "axis", "0", "stop"]
      none ⟨true, false⟩ (Or.inr (Or.inl rfl)),
   C8_parse_failures 1 ["stepper", "stepper1", "axis", "x", "stop"]
      (some []) ⟨true, false⟩
      (Or.inr (Or.inr ⟨by decide, by decide, by decide⟩))⟩

/-- C9 (status: corrected) — counterexample.  The claim says stop,
enable, disable and reset accept a message with an empty payload.  But
`json.loads` runs on every message before dispatch and raises on a
zero-length document, so an empty-payload stop (axis-level) or enable
(device-level) command addressed to the configured device is dropped
with no register write and no acknowledgment. -/
theorem C9_counterexample :
    jsonLoadsObject? "" = none
    ∧ onCommandParts 1 ["stepper", "stepper1", "axis", "0", "stop"]
        (jsonLoadsObject? "") ⟨true, false⟩ = ([], [])
    ∧ onCommandParts 1 ["stepper", "stepper1", "enable"]
        (jsonLoadsObject? "") ⟨true, false⟩ = ([], []) := by
  refine ⟨?_, ?_, ?_⟩ <;> decide

/-- C9 (status: corrected) — amended claim.  Stop, enable, disable and
reset ignore the payload's content, but the payload must still be a
valid JSON document: the empty object `\x7b\x7d` is accepted and the
corresponding register write issued (axis-level for axes 0 and 1, and
device-level, which acts on both axes), while a zero-length payload
fails decoding and is dropped. -/
theorem C9_amended (slaveId axisId : Int) (devSeg axisSeg : String)
    (t : Transport)
    (hdev : parseStepperId devSeg = slaveId)
    (hax : pyInt? axisSeg = some axisId)
    (h01 : axisId = 0 ∨ axisId = 1) :
    onCommandParts slaveId ["stepper", devSeg, "axis", axisSeg, "stop"]
        (jsonLoadsObject? "\x7b\x7d") t
      = ([stopCall slaveId],
         [⟨ackTopic slaveId axisId, "stop", writeRegisterResult t⟩])
    ∧ onCommandParts slaveId ["stepper", devSeg, "axis", axisSeg, "enable"]
        (jsonLoadsObject? "\x7b\x7d") t
      = ([enableCall slaveId],
         [⟨ackTopic slaveId axisId, "enable", writeRegisterResult t⟩])
    ∧ onCommandParts slaveId ["stepper", devSeg, "axis", axisSeg, "disable"]
        (jsonLoadsObject? "\x7b\x7d") t
      = ([disableCall slaveId],
         [⟨ackTopic slaveId axisId, "disable", writeRegisterResult t⟩])
    ∧ onCommandParts slaveId ["stepper", devSeg, "axis", axisSeg, "reset"]
        (jsonLoadsObject? "\x7b\x7d") t
      = ([resetCall slaveId],
         [⟨ackTopic slaveId axisId, "reset", writeRegisterResult t⟩])
    ∧ onCommandParts slaveId ["stepper", devSeg, "enable"]
        (jsonLoadsObject? "\x7b\x7d") t
      = ([enableCall slaveId, enableCall slaveId],
         [⟨ackTopic slaveId 0, "enable", writeRegisterResult t⟩,
          ⟨ackTopic slaveId 1, "enable", writeRegisterResult t⟩]) := by
  have hjson : jsonLoadsObject? "\x7b\x7d" = some [] := rfl
  rcases h01 with rfl | rfl <;>
    refine ⟨?_, ?_, ?_, ?_, ?_⟩ <;>
      simp [onCommandParts, onCommandBody, hjson, hdev, hax, guard01,
        pairConcat, runStop, runEnable, runDisable, runReset, runCall,
        ModbusCall.result, stopCall, enableCall, disableCall, resetCall]

/-- Closed instance of `C9_amended` for device 1, axis 0. -/
theorem C9_amended_witness :
    onCommandParts 1 ["stepper", "stepper1", "axis", "0", "stop"]
        (jsonLoadsObject? "\x7b\x7d") ⟨true, false⟩
      = ([stopCall 1],
         [⟨ackTopic 1 0, "stop", writeRegisterResult ⟨true, false⟩⟩])
    ∧ onCommandParts 1 ["stepper", "stepper1", "enable"]
        (jsonLoadsObject? "\x7b\x7d") ⟨true, false⟩
      = ([enableCall 1, enableCall 1],
         [⟨ackTopic 1 0, "enable", writeRegisterResult ⟨true, false⟩⟩,
          ⟨ackTopic 1 1, "enable", writeRegisterResult ⟨true, false⟩⟩]) := by
  have h := C9_amended 1 0 "stepper1" "0" ⟨true, false⟩
    (by decide) (by decide) (Or.inl rfl)
  exact ⟨h.1, h.2.2.2.2⟩

/-- C10 (status: confirmed).  In `servo_speed`, an integer speed is used
as-is, a float is truncated toward zero, and a numeric string is parsed
as a float and truncated (`"12.7"` writes speed word 12), while a
non-numeric string makes the command fail with no register write and no
acknowledgment (`"abc"`). -/
theorem C10_servo_speed_coercion (slaveId axisId n : Int) (q : ℚ)
    (t : Transport) (s : String) :
    (runServoSpeed slaveId axisId [("speed", PyVal.int n)] t).1
      = [ModbusCall.writeRegisters 0 [0x0203, axisId, n] slaveId]
    ∧ (runServoSpeed slaveId axisId [("speed", PyVal.float q)] t).1
      = [ModbusCall.writeRegisters 0 [0x0203, axisId, pyTrunc q] slaveId]
    ∧ (runServoSpeed slaveId axisId [("speed", PyVal.str "12.7")] t)
      = ([ModbusCall.writeRegisters 0 [0x0203, axisId, 12] slaveId],
         [⟨ackTopic slaveId axisId, "set_servo_speed", writeRegistersResult t⟩])
    ∧ (pyFloat? s = none →
        runServoSpeed slaveId axisId [("speed", PyVal.str s)] t = ([], []))
    ∧ runServoSpeed slaveId axisId [("speed", PyVal.str "abc")] t = ([], []) := by
  refine ⟨rfl, rfl, ?_, fun h => ?_, ?_⟩
  · have hq : pyFloat? "12.7" = some ((12 : ℚ) + 7 / 10 ^ 1) := rfl
    have hval : ((12 : ℚ) + 7 / 10 ^ 1) = 127 / 10 := by norm_num
    have ht : pyTrunc (127 / 10 : ℚ) = 12 := by
      have hnum : (127 / 10 : ℚ).num = 127 := by norm_num
      have hden : ((127 / 10 : ℚ).den : Int) = 10 := by norm_num
      rw [pyTrunc, hnum, hden]
      decide
    have h127 : servoSpeedInt?
        (Params.getD [("speed", PyVal.str "12.7")] "speed" (PyVal.int 0))
        = some 12 := by
      show (pyFloat? "12.7").map pyTrunc = some 12
      rw [hq, hval]
      simp [ht]
    unfold runServoSpeed
    rw [h127]
    rfl
  · simp [runServoSpeed, servoSpeedInt?, Params.getD, h]
  · have habc : servoSpeedInt?
        (Params.getD [("speed", PyVal.str "abc")] "speed" (PyVal.int 0))
        = none := rfl
    unfold runServoSpeed
    rw [habc]

/-- Closed instance of `C10_servo_speed_coercion`. -/
theorem C10_servo_speed_coercion_witness :
    (runServoSpeed 1 0 [("speed", PyVal.int 42)] ⟨true, false⟩).1
      = [ModbusCall.writeRegisters 0 [0x0203, 0, 42] 1]
    ∧ runServoSpeed 1 0 [("speed", PyVal.str "xyz")] ⟨true, false⟩ = ([], []) := by
  have h := C10_servo_speed_coercion 1 0 42 0 ⟨true, false⟩ "xyz"
  exact ⟨h.1, h.2.2.2.1 (by decide)⟩

end VSPC
